import Mathlib

/-!
Verification of the Tayara.tn scraper API (`src/api.py`) against its
natural-language specification.  The Python code is shallowly embedded:
DOM access is abstracted into record fields holding the values the
Playwright calls would return (an `Option` models a selector that may
find no element, attribute values that may be `None`, and so on), and
every pure computation of the source is translated function by function.
-/

namespace Tayara

/-! ## Python string primitives -/

/-- The characters Python's `str.strip()` removes (ASCII whitespace set
`' '`, `'\t'`, `'\n'`, `'\r'`, `'\x0b'`, `'\x0c'`). -/
def isPySpace (c : Char) : Bool :=
  c = ' ' || c = '\t' || c = '\n' || c = '\r' || c = Char.ofNat 11 || c = Char.ofNat 12

/-- Remove leading and trailing Python whitespace from a character list. -/
def stripList (l : List Char) : List Char :=
  ((l.dropWhile isPySpace).reverse.dropWhile isPySpace).reverse

/-- Python `s.strip()`. -/
def pyStrip (s : String) : String :=
  ⟨stripList s.data⟩

/-- Python `s.split(sep)` on a single-character separator, on character
lists: splits at every occurrence, keeps empty pieces, and always returns
at least one piece (`"".split(',') == [""]`). -/
def pySplitList (sep : Char) : List Char → List (List Char)
  | [] => [[]]
  | c :: rest =>
    if c = sep then
      [] :: pySplitList sep rest
    else
      match pySplitList sep rest with
      | [] => [[c]]
      | piece :: pieces => (c :: piece) :: pieces

/-- Python `s.split(sep)` on strings. -/
def pySplit (sep : Char) (s : String) : List String :=
  (pySplitList sep s.data).map (fun l => ⟨l⟩)

/-- Python `s.startswith(p)` on character lists. -/
def startsWithList : List Char → List Char → Bool
  | _, [] => true
  | [], _ :: _ => false
  | c :: cs, p :: ps => c = p && startsWithList cs ps

/-- Python `s.startswith(p)`. -/
def pyStartswith (s p : String) : Bool :=
  startsWithList s.data p.data

/-- Truthiness of a Python `Optional[str]`: `None` and `""` are falsy. -/
def optStrTruthy : Option String → Bool
  | some s => s ≠ ""
  | none => false

/-- Truthiness of a Python `Optional[int]`: `None` and `0` are falsy. -/
def optIntTruthy : Option Int → Bool
  | some v => v ≠ 0
  | none => false

/-! ## Response models (`Product`, `SearchResponse`, `ProductResponse`) -/

/-- The pydantic `Product` model of `api.py`.  `product_url` and `title`
are required; everything else is optional with `None` (here `none`)
defaults, and `is_delivery_available` defaults to `False`. -/
structure Product where
  title : String
  price : Option String := none
  location : Option String := none
  date_posted : Option String := none
  image_url : Option String := none
  product_url : String
  description : Option String := none
  seller_name : Option String := none
  seller_contact : Option String := none
  is_delivery_available : Bool := false
  deriving DecidableEq, Repr

/-- The pydantic `SearchResponse` model. -/
structure SearchResponse where
  success : Bool
  total_products : Nat
  products : List Product
  error : Option String := none
  deriving DecidableEq, Repr

/-- The pydantic `ProductResponse` model. -/
structure ProductResponse where
  success : Bool
  product : Product
  error : Option String := none
  deriving DecidableEq, Repr

/-! ## Listing-card extraction (`TayaraScraper.extract_product_info`)

A listing card (`<article>` element) is abstracted by the values the
Playwright queries inside `extract_product_info` would return. -/

/-- One `<article>` card of a listing page.
* `title_elem`: `inner_text` of `h2.card-title`, `none` when the selector
  finds no element;
* `price_elem`: for the `data` element, the pair
  (`get_attribute("value")`, `inner_text`), `none` when absent;
* `location_elem`: `inner_text` of the span next to the location icon;
* `img_elem`: `get_attribute("src")` of the first `img` (the attribute
  itself may be `None`);
* `link_elem`: `get_attribute("href")` of the first `a`. -/
structure CardElement where
  title_elem : Option String := none
  price_elem : Option (Option String × String) := none
  location_elem : Option String := none
  img_elem : Option (Option String) := none
  link_elem : Option (Option String) := none
  deriving DecidableEq, Repr

/-- `TayaraScraper.extract_product_info`, line by line.  Returns `none`
where the Python returns `None` — including the case where constructing
`Product` raises a pydantic `ValidationError` (a `None` `product_url`),
which the enclosing `try` turns into `return None`. -/
def extract_product_info (e : CardElement) : Option Product :=
  let title : String :=
    match e.title_elem with
    | some t => t
    | none => "No title"
  let price : Option String :=
    match e.price_elem with
    | none => none
    | some (price_value, price_text) =>
      if optStrTruthy price_value then
        some (price_value.getD "" ++ " DT")
      else if price_text ≠ "" then
        some (pyStrip price_text)
      else
        none
  let location_and_date : Option String :=
    match e.location_elem with
    | some t => some t
    | none => none
  let locDate : Option String × Option String :=
    match location_and_date with
    | some t =>
      if t ≠ "" then
        match pySplit ',' t with
        | p0 :: p1 :: _ => (some (pyStrip p0), some (pyStrip p1))
        | _ => (some (pyStrip t), none)
      else (none, none)
    | none => (none, none)
  let image_url : Option String :=
    match e.img_elem with
    | some src => src
    | none => none
  let relative_url : Option String :=
    match e.link_elem with
    | some href => href
    | none => some ""
  let product_url : Option String :=
    match relative_url with
    | some r =>
      if r ≠ "" ∧ ¬ pyStartswith r "http" then
        some ("https://www.tayara.tn" ++ r)
      else
        some r
    | none => none
  if title ≠ "" ∧ pyStrip title ≠ "" then
    match product_url with
    | some u =>
      some { title := pyStrip title, price := price, location := locDate.1,
             date_posted := locDate.2, image_url := image_url, product_url := u }
    | none => none
  else
    none

/-- The per-card loop of `scrape_products_per_page`: every `article`
element is fed to `extract_product_info` and the non-`None` results are
collected in order. -/
def scrape_page (elems : List CardElement) : List Product :=
  elems.filterMap extract_product_info

/-! ## Detail-page extraction (`TayaraScraper.get_product_page_info`) -/

/-- The Python exceptions that can escape the body of
`get_product_page_info` before being re-raised as `ValueError` by the
`except` clause at its end. -/
inductive PyExn where
  /-- `UnboundLocalError` / `NameError`: a local variable read before any
  assignment (carries the variable name). -/
  | nameError (var : String)
  /-- `IndexError`: a list subscript out of range. -/
  | indexError
  /-- Playwright `TimeoutError`: a bounded wait that never succeeded. -/
  | timeoutError
  /-- Any other Playwright failure (for example a failing click). -/
  | playwrightError (what : String)
  deriving DecidableEq, Repr

/-- A product detail page, abstracted by the values the Playwright
queries inside `get_product_page_info` would return.
* `title_elem`, `seller_elem`: `inner_text` of the title/seller spans;
* `price_elem`: (`get_attribute("value")`, `inner_text`) of the `data`
  element;
* `description_elem`: `text_content` of the description paragraph;
* `location_elem`: `text_content` of the location span;
* `delivery_elem`: container → second child span → its `text_content`
  (each level may be absent);
* `buttonsCount`: how many `Afficher numéro` buttons exist;
* `clickRaises`: whether clicking the second button raises;
* `tel_link`: `none` when the `tel:` link never appears inside the 5s
  wait (a `TimeoutError`), otherwise its `text_content`;
* `img_elem`: `get_attribute("src")` of the first `img`. -/
structure DetailPage where
  title_elem : Option String := none
  seller_elem : Option String := none
  price_elem : Option (Option String × String) := none
  description_elem : Option String := none
  location_elem : Option String := none
  delivery_elem : Option (Option (Option String)) := none
  buttonsCount : Nat := 0
  clickRaises : Bool := false
  tel_link : Option (Option String) := none
  img_elem : Option (Option String) := none
  deriving DecidableEq, Repr

/-- Everything before the first occurrence of the literal `Tel:` in a
character list, or `none` when the marker does not occur: the
`re.search(r'^(.*?)Tel:', full_text, re.DOTALL)` of the source, whose
non-greedy group 1 is exactly the text before the first marker. -/
def telSplit : List Char → Option (List Char)
  | [] => none
  | c :: rest =>
    if c = 'T' ∧ rest.take 3 = ['e', 'l', ':'] then
      some []
    else
      match telSplit rest with
      | some pre => some (c :: pre)
      | none => none

/-- `re.sub(r'\s+', ' ', s)` on a character list: every maximal run of
whitespace becomes a single space.  The flag records whether the
previous character was part of a whitespace run. -/
def collapseWsAux : List Char → Bool → List Char
  | [], _ => []
  | c :: rest, prevSpace =>
    if isPySpace c then
      if prevSpace then collapseWsAux rest true
      else ' ' :: collapseWsAux rest true
    else
      c :: collapseWsAux rest false

/-- `re.sub(r'\s+', ' ', s)` on strings. -/
def collapseWs (s : String) : String :=
  ⟨collapseWsAux s.data false⟩

/-- The price / description block of `get_product_page_info`, lines
338-360 of `api.py`.  The description extraction is indented inside the
`if price_elem:` branch, and the local variable `description` is never
initialised; the second component is `none` exactly when the Python
local `description` is left unbound (no `data` element, or a `data`
element but no description paragraph). -/
def priceAndDescription (pg : DetailPage) : Option String × Option String :=
  match pg.price_elem with
  | none => (none, none)
  | some (price_value, price_inner) =>
    let price : Option String :=
      if optStrTruthy price_value then
        some (price_value.getD "" ++ " DT")
      else if price_inner ≠ "" then
        some (pyStrip price_inner)
      else
        none
    let description : Option String :=
      match pg.description_elem with
      | none => none
      | some full_text =>
        match telSplit full_text.data with
        | some pre => some (collapseWs (pyStrip ⟨pre⟩))
        | none => some (pyStrip full_text)
    (price, description)

/-- The location / date block of `get_product_page_info`, lines 362-371:
`text.split(',')` followed by unguarded subscripts `[0]` and `[1]`; a
text with no comma makes `text_elems[1]` raise `IndexError`. -/
def locationSplit (pg : DetailPage) : Except PyExn (Option String × Option String) :=
  match pg.location_elem with
  | none => Except.ok (none, none)
  | some text =>
    if text ≠ "" then
      match pySplit ',' text with
      | p0 :: p1 :: _ => Except.ok (some (pyStrip p0), some (pyStrip p1))
      | _ => Except.error PyExn.indexError
    else
      Except.ok (none, none)

/-- The delivery block, lines 374-384: `is_delivery` is `True` exactly
when the container, its second child span and that span's text all exist
and the text equals `oui` after strip + lowercase. -/
def deliveryStatus (pg : DetailPage) : Bool :=
  match pg.delivery_elem with
  | some (some (some status_text)) =>
    if status_text ≠ "" then
      (pyStrip status_text).toLower = "oui"
    else
      false
  | _ => false

/-- The body of the seller-contact `try` block, lines 388-399, with the
exceptions it can raise made explicit: `buttons[1]` raises `IndexError`
when fewer than two buttons exist (and `buttons` is truthy), the click
and the bounded 5-second `wait_for_selector` can raise. -/
def contactAttempt (pg : DetailPage) : Except PyExn (Option String) :=
  if pg.buttonsCount = 0 then
    Except.ok none
  else if pg.buttonsCount < 2 then
    Except.error PyExn.indexError
  else if pg.clickRaises then
    Except.error (PyExn.playwrightError "click")
  else
    match pg.tel_link with
    | none => Except.error PyExn.timeoutError
    | some txt =>
      match txt with
      | none => Except.ok none
      | some t =>
        if t ≠ "" then
          Except.ok (some (pyStrip ⟨t.data.drop 4⟩))
        else
          Except.ok (some t)

/-- The whole seller-contact section including its own
`try/except Exception` wrapper (lines 387-401): any exception is caught,
logged as a warning, and `seller_contact` keeps its value `None`. -/
def contactOf (pg : DetailPage) : Option String :=
  match contactAttempt pg with
  | Except.ok c => c
  | Except.error _ => none

/-- `TayaraScraper.get_product_page_info`.  An exception escaping the
body is re-raised by line 424 as
`ValueError(f"Failed to extract product info: {e}")`; here the raised
exception itself is returned as `Except.error`. -/
def get_product_page_info (pg : DetailPage) (url : String) : Except PyExn Product :=
  let title : String :=
    match pg.title_elem with
    | some t => if t ≠ "" ∧ pyStrip t ≠ "" then pyStrip t else "No title"
    | none => "No title"
  let seller_name : Option String :=
    match pg.seller_elem with
    | some t => if t ≠ "" ∧ (pyStrip t).length > 0 then some (pyStrip t) else none
    | none => none
  let pd := priceAndDescription pg
  match locationSplit pg with
  | Except.error e => Except.error e
  | Except.ok (location, date_posted) =>
    let is_delivery := deliveryStatus pg
    let seller_contact := contactOf pg
    let image_url : Option String :=
      match pg.img_elem with
      | some src => src
      | none => none
    match pd.2 with
    | none => Except.error (PyExn.nameError "description")
    | some description =>
      Except.ok
        { title := title, seller_name := seller_name,
          seller_contact := seller_contact, date_posted := date_posted,
          is_delivery_available := is_delivery, price := pd.1,
          location := location, description := some description,
          image_url := image_url, product_url := url }

/-! ## URL building (`TayaraScraper.build_url`) -/

/-- Uppercase hexadecimal digit, as `urllib.parse.quote` prints. -/
def hexDigitChar (n : Nat) : Char :=
  if n < 10 then Char.ofNat (48 + n) else Char.ofNat (55 + n)

/-- UTF-8 encoding of one character, as byte values. -/
def utf8Bytes (c : Char) : List Nat :=
  let v := c.toNat
  if v < 128 then [v]
  else if v < 2048 then [192 + v / 64, 128 + v % 64]
  else if v < 65536 then [224 + v / 4096, 128 + (v / 64) % 64, 128 + v % 64]
  else [240 + v / 262144, 128 + (v / 4096) % 64, 128 + (v / 64) % 64, 128 + v % 64]

/-- The characters `urllib.parse.quote` leaves unescaped with its
default `safe='/'`: ASCII letters and digits, `_.-~`, and `/`. -/
def quoteSafe (c : Char) : Bool :=
  (decide ('A' ≤ c) && decide (c ≤ 'Z')) ||
  (decide ('a' ≤ c) && decide (c ≤ 'z')) ||
  (decide ('0' ≤ c) && decide (c ≤ '9')) ||
  c = '_' || c = '.' || c = '-' || c = '~' || c = '/'

/-- Percent-encoding of one byte: `%` followed by two uppercase hex digits. -/
def pctEncode (b : Nat) : List Char :=
  ['%', hexDigitChar (b / 16), hexDigitChar (b % 16)]

/-- `urllib.parse.quote` on one character. -/
def quoteChar (c : Char) : List Char :=
  if quoteSafe c then [c] else (utf8Bytes c).flatMap pctEncode

/-- `urllib.parse.quote(s)` with the default `safe='/'`. -/
def pyQuote (s : String) : String :=
  ⟨s.data.flatMap quoteChar⟩

/-- `TayaraScraper.BASE_URL`. -/
def BASE_URL : String := "https://www.tayara.tn/ads"

/-- One guarded `path_segments.append(x)` of `build_url`: append `x`
when the guard is truthy, keep the list otherwise. -/
def appendIf (b : Prop) [Decidable b] (l : List String) (x : String) : List String :=
  if b then l ++ [x] else l

/-- One `params.append(f"{key}{v}")` of `build_url`, guarded by
`v is not None`. -/
def appendOptInt (o : Option Int) (l : List String) (key : String) : List String :=
  match o with
  | some v => l ++ [key ++ toString v]
  | none => l

/-- `TayaraScraper.build_url`, appending path segments and query
parameters exactly in the source's order.  `query` and `category` are
required positional arguments in Python (still guarded by truthiness
tests); the rest default to `None`, and `page` defaults to `1`. -/
def build_url (query category : String) (subcategory city condition : Option String)
    (min_price max_price : Option Int) (page : Option Int) : String :=
  let path_segments : List String := []
  let path_segments := appendIf (category ≠ "") path_segments ("c/" ++ pyQuote category)
  let path_segments :=
    appendIf (optStrTruthy subcategory) path_segments (pyQuote (subcategory.getD ""))
  let path_segments :=
    appendIf (optStrTruthy city) path_segments ("l/" ++ pyQuote (city.getD ""))
  let path_segments :=
    appendIf (optStrTruthy condition) path_segments ("t/" ++ pyQuote (condition.getD ""))
  let path_segments := appendIf (query ≠ "") path_segments ("k/" ++ pyQuote query)
  let url := BASE_URL ++ "/" ++ String.intercalate "/" path_segments ++ "/"
  let params : List String := []
  let params := appendOptInt min_price params "minPrice="
  let params := appendOptInt max_price params "maxPrice="
  let params :=
    appendIf (optIntTruthy page) params ("page=" ++ toString (page.getD 0))
  if params.isEmpty then url else url ++ "?" ++ String.intercalate "&" params

/-! ## Pagination (`TayaraScraper.scrape_products`)

`scrape_products_per_page` performs network and browser work; for the
pagination loop it is abstracted as a map from a page number to its
outcome: either the list of products extracted from that page, or a
raised exception. -/

/-- Outcome of `scrape_products_per_page` for one page number. -/
inductive PageOutcome where
  | ok (products : List Product)
  | err
  deriving Repr

/-- The dictionary `scrape_products` returns. -/
structure ScrapeResult where
  success : Bool
  total_products : Nat
  products : List Product
  deriving DecidableEq, Repr

/-- The `while current_page <= max_pages` loop of `scrape_products`,
measured by the number of remaining admissible pages
(`max_pages - current_page + 1`): an exception on a page is logged and
the page counter advances; an empty page stops before extending; a page
with fewer than 30 products is appended and then stops. -/
def scrapeAux (f : Nat → PageOutcome) : Nat → Nat → List Product → List Product
  | 0, _, all_products => all_products
  | remaining + 1, current_page, all_products =>
    match f current_page with
    | PageOutcome.err => scrapeAux f remaining (current_page + 1) all_products
    | PageOutcome.ok products_per_page =>
      if products_per_page.isEmpty then
        all_products
      else if products_per_page.length < 30 then
        all_products ++ products_per_page
      else
        scrapeAux f remaining (current_page + 1) (all_products ++ products_per_page)

/-- `TayaraScraper.scrape_products`: run the pagination loop from page 1
and package the aggregate; `success` is unconditionally `True`. -/
def scrape_products (f : Nat → PageOutcome) (max_pages : Nat) : ScrapeResult :=
  let all_products := scrapeAux f max_pages 1 []
  { success := true, total_products := all_products.length, products := all_products }

/-! ## FastAPI endpoints (`/search`, `/product`) -/

/-- What an endpoint handler produces: either an `HTTPException`
(status code and detail) surfaced by FastAPI as a client error, or a
JSON response body. -/
inductive EndpointResult (α : Type) where
  | httpError (statusCode : Nat) (detail : String)
  | ok (response : α)
  deriving DecidableEq, Repr

/-- The `/search` validation, line 464: both bounds given and
`min_price > max_price`. -/
def priceRangeInvalid (min_price max_price : Option Int) : Bool :=
  match min_price, max_price with
  | some mn, some mx => decide (mn > mx)
  | _, _ => false

/-- The `/search` handler `search_products`, abstracted over the outcome
of `scraper.scrape_products` (`Except.error` carries `str(e)` of an
escaping exception).  The `HTTPException` raised by the validation is
re-raised by the first `except` clause; any other exception becomes a
failure-flagged `SearchResponse`. -/
def search_products (min_price max_price : Option Int)
    (scrape : Except String ScrapeResult) : EndpointResult SearchResponse :=
  if priceRangeInvalid min_price max_price then
    EndpointResult.httpError 400 "min_price cannot be greater than max_price"
  else
    match scrape with
    | Except.ok result =>
      EndpointResult.ok
        { success := result.success, total_products := result.total_products,
          products := result.products }
    | Except.error e =>
      EndpointResult.ok
        { success := false, total_products := 0, products := [], error := some e }

/-- The `/product` handler `get_product_info`, abstracted over the
outcome of `scraper.get_product_page_info` (`Except.error` carries
`str(e)`; the `ValueError` and generic `Exception` clauses build the same
placeholder response). -/
def get_product_info (url : String) (scrape : Except String Product) :
    EndpointResult ProductResponse :=
  if pyStartswith url "https://www.tayara.tn/" then
    match scrape with
    | Except.ok product =>
      EndpointResult.ok { success := true, product := product }
    | Except.error e =>
      EndpointResult.ok
        { success := false, product := { title := "Error", product_url := url },
          error := some e }
  else
    EndpointResult.httpError 400 "URL must be a valid Tayara.tn product URL"

/-! ## Spec-side URL shape

The specification describes the built URL as: exactly the segments for
the present fields, in the fixed order category / subcategory / city /
condition / query, each percent-encoded, joined with `/`, a trailing
slash, then a query string from `minPrice`, `maxPrice` and `page`.
These definitions follow the spec's words; the refinement theorem
compares them with `build_url`, which follows the source. -/

/-- The path segments the spec promises: one per present field, in the
fixed order, with the prefixes `c/`, (none), `l/`, `t/`, `k/`. -/
def specSegments (query category : String) (subcategory city condition : Option String) :
    List String :=
  (if category ≠ "" then ["c/" ++ pyQuote category] else [])
  ++ (if optStrTruthy subcategory then [pyQuote (subcategory.getD "")] else [])
  ++ (if optStrTruthy city then ["l/" ++ pyQuote (city.getD "")] else [])
  ++ (if optStrTruthy condition then ["t/" ++ pyQuote (condition.getD "")] else [])
  ++ (if query ≠ "" then ["k/" ++ pyQuote query] else [])

/-- The query-string entries the spec promises: `minPrice` and
`maxPrice` whenever given, `page` whenever truthy. -/
def specParams (min_price max_price page : Option Int) : List String :=
  (match min_price with
   | some v => ["minPrice=" ++ toString v]
   | none => [])
  ++ (match max_price with
   | some v => ["maxPrice=" ++ toString v]
   | none => [])
  ++ (if optIntTruthy page then ["page=" ++ toString (page.getD 0)] else [])

/-- The URL shape the spec promises: base, `/`, the segments joined by
`/`, a trailing `/`, and the `&`-joined query string after `?` when any
parameter is present. -/
def build_url_spec (query category : String) (subcategory city condition : Option String)
    (min_price max_price page : Option Int) : String :=
  let segs := specSegments query category subcategory city condition
  let params := specParams min_price max_price page
  let path := BASE_URL ++ "/" ++ String.intercalate "/" segs ++ "/"
  if params.isEmpty then path else path ++ "?" ++ String.intercalate "&" params

/-! ## Concrete fixtures used by counterexamples and witnesses -/

/-- A listing card whose `h2.card-title` selector finds nothing. -/
def noTitleCard : CardElement :=
  { title_elem := none, link_elem := some (some "/item/1") }

/-- A listing card with a normal title and link. -/
def plainCard : CardElement :=
  { title_elem := some "Bike", link_elem := some (some "/item/5") }

/-- The product `extract_product_info` yields for `plainCard`. -/
def plainCardProduct : Product :=
  { title := "Bike", product_url := "https://www.tayara.tn/item/5" }

/-- A detail page with a price element but no description paragraph. -/
def priceNoDescPage : DetailPage :=
  { price_elem := some (some "250", "250 DT") }

/-- A detail page with a description paragraph but no price element. -/
def noPricePage : DetailPage :=
  { description_elem := some "Great condition, slightly used" }

/-- A detail page whose composite location text has no comma. -/
def noCommaDetailPage : DetailPage :=
  { price_elem := some (some "100", "100 DT"),
    description_elem := some "desc",
    location_elem := some "Tunis" }

/-- A detail page whose composite location text has a comma. -/
def commaDetailPage : DetailPage :=
  { price_elem := some (some "100", "100 DT"),
    description_elem := some "desc",
    location_elem := some "Ariana, il y a 2 jours" }

/-- A detail page where only one reveal button exists. -/
def oneButtonPage : DetailPage :=
  { buttonsCount := 1 }

/-- A detail page where the `tel:` link never appears in the wait. -/
def telTimeoutPage : DetailPage :=
  { buttonsCount := 2, tel_link := none }

/-- A detail page where the contact reveal succeeds. -/
def telOkPage : DetailPage :=
  { buttonsCount := 2, tel_link := some (some "tel:21234567 ") }

/-- A one-field product used to populate synthetic pages. -/
def stubProduct : Product :=
  { title := "item", product_url := "https://www.tayara.tn/item/1" }

/-- Per-page outcomes 30, 30, 12 products on pages 1-3. -/
def pages303012 : Nat → PageOutcome := fun n =>
  if n = 1 then PageOutcome.ok (List.replicate 30 stubProduct)
  else if n = 2 then PageOutcome.ok (List.replicate 30 stubProduct)
  else if n = 3 then PageOutcome.ok (List.replicate 12 stubProduct)
  else PageOutcome.err

/-- Per-page outcome: every page is empty. -/
def pagesEmpty : Nat → PageOutcome := fun _ => PageOutcome.ok []

/-- A trivial scrape result for endpoint fixtures. -/
def stubScrapeResult : ScrapeResult :=
  { success := true, total_products := 0, products := [] }

/-! ## Helper lemmas -/

/-- The emission gate `if title and title.strip():` is equivalent to the
trimmed title being non-blank. -/
theorem titleGate_iff (t : String) : (t ≠ "" ∧ pyStrip t ≠ "") ↔ pyStrip t ≠ "" := by
  constructor
  · exact fun h => h.2
  · intro h
    refine ⟨fun he => h ?_, h⟩
    subst he
    rfl

/-- `filterMap` keeps exactly the elements mapped to `some`. -/
theorem length_filterMap_countP {α β : Type} (p : α → Option β) (l : List α) :
    (l.filterMap p).length = l.countP (fun a => (p a).isSome) := by
  induction l with
  | nil => rfl
  | cons a l ih =>
    simp only [List.filterMap_cons, List.countP_cons]
    cases h : p a <;> simp [h, ih]

/-- Python `split` never returns an empty list of pieces. -/
theorem pySplitList_ne_nil (sep : Char) (l : List Char) : pySplitList sep l ≠ [] := by
  induction l with
  | nil => simp [pySplitList]
  | cons c rest ih =>
    simp only [pySplitList]
    split
    · simp
    · cases h : pySplitList sep rest with
      | nil => exact absurd h ih
      | cons piece pieces => simp [h]

/-- Without the separator, Python `split` returns the whole input as the
single piece. -/
theorem pySplitList_no_sep (sep : Char) (l : List Char) (h : sep ∉ l) :
    pySplitList sep l = [l] := by
  induction l with
  | nil => rfl
  | cons c rest ih =>
    simp only [List.mem_cons, not_or] at h
    simp only [pySplitList]
    rw [if_neg (fun hc => h.1 hc.symm)]
    rw [ih h.2]

/-- With the separator present, Python `split` returns at least two
pieces. -/
theorem pySplitList_mem_sep (sep : Char) (l : List Char) (h : sep ∈ l) :
    ∃ a b rest, pySplitList sep l = a :: b :: rest := by
  induction l with
  | nil => cases h
  | cons c rest ih =>
    simp only [pySplitList]
    by_cases hc : c = sep
    · rw [if_pos hc]
      cases hsp : pySplitList sep rest with
      | nil => exact absurd hsp (pySplitList_ne_nil sep rest)
      | cons b pieces => exact ⟨[], b, pieces, rfl⟩
    · rw [if_neg hc]
      have hmem : sep ∈ rest := by
        rcases List.mem_cons.mp h with h1 | h1
        · exact absurd h1.symm hc
        · exact h1
      obtain ⟨a, b, rest2, hab⟩ := ih hmem
      rw [hab]
      exact ⟨c :: a, b, rest2, rfl⟩

/-- The only exception the location/date block can raise is
`IndexError`. -/
theorem locationSplit_error_eq (pg : DetailPage) (e : PyExn)
    (h : locationSplit pg = Except.error e) : e = PyExn.indexError := by
  unfold locationSplit at h
  split at h
  · cases h
  · split at h
    · split at h
      · cases h
      · injection h with h
        exact h.symm
    · cases h

/-- One step of the pagination loop: an empty page stops with the
accumulator unchanged. -/
theorem scrapeAux_ok_stop_empty (f : Nat → PageOutcome) (rem cur : Nat) (acc : List Product)
    (h : f cur = PageOutcome.ok []) :
    scrapeAux f (rem + 1) cur acc = acc := by
  simp [scrapeAux, h]

/-- One step of the pagination loop: a short page is appended and then
the loop stops. -/
theorem scrapeAux_ok_stop_small (f : Nat → PageOutcome) (rem cur : Nat) (acc ps : List Product)
    (h : f cur = PageOutcome.ok ps) (hne : ps ≠ []) (hlt : ps.length < 30) :
    scrapeAux f (rem + 1) cur acc = acc ++ ps := by
  simp [scrapeAux, h, List.isEmpty_eq_false.mpr hne, hlt]

/-- One step of the pagination loop: a full page is appended and the
loop advances to the next page. -/
theorem scrapeAux_ok_continue (f : Nat → PageOutcome) (rem cur : Nat) (acc ps : List Product)
    (h : f cur = PageOutcome.ok ps) (hge : ¬ ps.length < 30) :
    scrapeAux f (rem + 1) cur acc = scrapeAux f rem (cur + 1) (acc ++ ps) := by
  have hne : ps ≠ [] := by
    intro h0
    subst h0
    simp at hge
  simp [scrapeAux, h, List.isEmpty_eq_false.mpr hne, hge]

/-- A guarded segment append, rephrased as list concatenation. -/
theorem appendIf_eq (b : Prop) [Decidable b] (l : List String) (x : String) :
    appendIf b l x = l ++ (if b then [x] else []) := by
  unfold appendIf
  split_ifs <;> simp

/-- A guarded parameter append, rephrased as list concatenation. -/
theorem appendOptInt_eq (o : Option Int) (l : List String) (key : String) :
    appendOptInt o l key =
      l ++ (match o with | some v => [key ++ toString v] | none => []) := by
  cases o <;> simp [appendOptInt]

/-- Percent-encoding a character never produces the empty string. -/
theorem quoteChar_ne_nil (c : Char) : quoteChar c ≠ [] := by
  unfold quoteChar
  split
  · simp
  · unfold utf8Bytes
    dsimp only
    split_ifs <;> simp [pctEncode]

/-- Percent-encoding a non-empty string yields a non-empty string. -/
theorem pyQuote_ne_empty (s : String) (h : s ≠ "") : pyQuote s ≠ "" := by
  cases hs : s.data with
  | nil =>
    exact absurd (String.ext hs) h
  | cons c rest =>
    intro he
    have hd : s.data.flatMap quoteChar = ([] : List Char) := by
      have := String.ext_iff.mp he
      simpa [pyQuote] using this
    rw [hs] at hd
    simp only [List.flatMap_cons] at hd
    exact quoteChar_ne_nil c (List.append_eq_nil.mp hd).1

/-- Appending to a non-empty string yields a non-empty string. -/
theorem append_ne_empty_left (x y : String) (h : x ≠ "") : x ++ y ≠ "" := by
  intro he
  apply h
  have hd := String.ext_iff.mp he
  rw [String.data_append] at hd
  exact String.ext (List.append_eq_nil.mp hd).1

/-- A truthy optional string has a non-empty payload. -/
theorem optStrTruthy_getD (o : Option String) (h : optStrTruthy o = true) :
    o.getD "" ≠ "" := by
  cases o with
  | none => simp [optStrTruthy] at h
  | some s => simpa [optStrTruthy] using h

/-! ## Claims -/

/-- C1, counterexample: a card whose title element is missing does NOT
yield "no record" — the code substitutes the fallback `"No title"`,
which is non-blank, so a `Product` is emitted. -/
theorem C1_missing_title_counterexample :
    noTitleCard.title_elem = none
    ∧ extract_product_info noTitleCard =
        some { title := "No title", product_url := "https://www.tayara.tn/item/1" } :=
  ⟨rfl, rfl⟩

/-- C1, amended: the Listing Extractor emits a `Product` for a card
exactly when neither failure case holds: a title element present with
blank trimmed text, or an anchor element present with a null `href`
(which makes the `Product` constructor fail on a `None` `product_url`).
A missing title element falls back to `"No title"` and is emitted.  A
page therefore yields exactly one record per card outside those two
cases, in order. -/
theorem C1_title_gate :
    (∀ e : CardElement,
      extract_product_info e = none ↔
        (∃ t, e.title_elem = some t ∧ pyStrip t = "") ∨ e.link_elem = some none)
    ∧ (∀ elems : List CardElement,
        (scrape_page elems).length =
          elems.countP (fun e => (extract_product_info e).isSome)) := by
  constructor
  · intro e
    obtain ⟨te, pe, le, ie, lke⟩ := e
    have hnt : ("No title" : String) ≠ "" ∧ pyStrip "No title" ≠ "" := by decide
    cases te with
    | none =>
      rcases lke with _ | ⟨_ | r⟩
      · simp [extract_product_info, hnt]
      · simp [extract_product_info, hnt]
      · by_cases hr : ¬r = "" ∧ pyStartswith r "http" = false
        · simp [extract_product_info, hnt, hr]
        · simp [extract_product_info, hnt, hr]
    | some t =>
      by_cases ht : pyStrip t = ""
      · have hng : ¬ (t ≠ "" ∧ pyStrip t ≠ "") := by
          rw [titleGate_iff]
          simpa using ht
        simp [extract_product_info, hng, ht]
      · have hcond : t ≠ "" ∧ pyStrip t ≠ "" := (titleGate_iff t).mpr ht
        rcases lke with _ | ⟨_ | r⟩
        · simp [extract_product_info, hcond, ht]
        · simp [extract_product_info, hcond, ht]
        · by_cases hr : ¬r = "" ∧ pyStartswith r "http" = false
          · simp [extract_product_info, hcond, ht, hr]
          · simp [extract_product_info, hcond, ht, hr]
  · intro elems
    exact length_filterMap_countP extract_product_info elems

/-- C2: the description block is indented inside the `if price_elem:`
branch and the local `description` is never initialised, so a detail
page with a price element but no description paragraph — and likewise a
page with no price element at all — makes the `Product(...)` call read
an unbound local, raising `UnboundLocalError` and failing the whole
extraction, against the claim that the field is computed independently
and its absence is tolerated.  When both elements exist, the `Tel:`
truncation does behave as described. -/
theorem C2_description_unbound :
    get_product_page_info priceNoDescPage "https://www.tayara.tn/item/1" =
        Except.error (PyExn.nameError "description")
    ∧ get_product_page_info noPricePage "https://www.tayara.tn/item/2" =
        Except.error (PyExn.nameError "description")
    ∧ (priceAndDescription
        { price_elem := some (some "100", ""),
          description_elem := some "Nice bike  \n  good Tel: 21 234 567" }).2 =
        some "Nice bike good" :=
  ⟨rfl, rfl, rfl⟩

/-- C3, counterexample: a detail-page composite location text with no
comma does not yield a location-only record — the unguarded
`text_elems[1]` raises `IndexError` and the whole extraction fails. -/
theorem C3_no_comma_counterexample :
    noCommaDetailPage.location_elem = some "Tunis"
    ∧ ((',') ∈ "Tunis".data → False)
    ∧ get_product_page_info noCommaDetailPage "https://www.tayara.tn/item/3" =
        Except.error PyExn.indexError :=
  ⟨rfl, by decide, rfl⟩

/-- C3, amended: on a detail page whose composite location text is
non-empty, a text containing a comma yields location and date as the
trimmed first and second comma-separated pieces (when the extraction
succeeds); a text with no comma raises `IndexError`, failing the whole
extraction — unlike the Listing Extractor, which guards the split with
a length check. -/
theorem C3_location_split (pg : DetailPage) (url t : String)
    (he : pg.location_elem = some t) (hne : t ≠ "") :
    (¬ (',') ∈ t.data → get_product_page_info pg url = Except.error PyExn.indexError)
    ∧ (∀ p, get_product_page_info pg url = Except.ok p →
        p.location = some (pyStrip ((pySplit ',' t).getD 0 ""))
        ∧ p.date_posted = some (pyStrip ((pySplit ',' t).getD 1 ""))) := by
  by_cases hc : (',') ∈ t.data
  · obtain ⟨a, b, rest, hab⟩ := pySplitList_mem_sep ',' t.data hc
    have hsplit : locationSplit pg = Except.ok (some (pyStrip ⟨a⟩), some (pyStrip ⟨b⟩)) := by
      simp [locationSplit, he, hne, pySplit, hab]
    have hget0 : (pySplit ',' t).getD 0 "" = (⟨a⟩ : String) := by
      simp [pySplit, hab]
    have hget1 : (pySplit ',' t).getD 1 "" = (⟨b⟩ : String) := by
      simp [pySplit, hab]
    constructor
    · intro h
      exact absurd hc h
    · intro p hp
      simp only [get_product_page_info] at hp
      rw [hsplit] at hp
      dsimp only at hp
      cases hpd : (priceAndDescription pg).2 with
      | none =>
        rw [hpd] at hp
        cases hp
      | some d =>
        rw [hpd] at hp
        dsimp only at hp
        injection hp with hp
        subst hp
        rw [hget0, hget1]
        exact ⟨rfl, rfl⟩
  · have hone : pySplitList ',' t.data = [t.data] := pySplitList_no_sep ',' t.data hc
    have hsplit : locationSplit pg = Except.error PyExn.indexError := by
      simp [locationSplit, he, hne, pySplit, hone]
    have hget : get_product_page_info pg url = Except.error PyExn.indexError := by
      simp only [get_product_page_info]
      rw [hsplit]
    constructor
    · intro _
      exact hget
    · intro p hp
      rw [hget] at hp
      cases hp

/-- C3, witness: the amended statement applied to a concrete page with
a comma-bearing location text. -/
theorem C3_location_split_witness :
    commaDetailPage.location_elem = some "Ariana, il y a 2 jours"
    ∧ ("Ariana, il y a 2 jours" : String) ≠ ""
    ∧ ((¬ (',') ∈ ("Ariana, il y a 2 jours" : String).data →
          get_product_page_info commaDetailPage "u" = Except.error PyExn.indexError)
       ∧ (∀ p, get_product_page_info commaDetailPage "u" = Except.ok p →
            p.location =
              some (pyStrip ((pySplit ',' "Ariana, il y a 2 jours").getD 0 ""))
            ∧ p.date_posted =
              some (pyStrip ((pySplit ',' "Ariana, il y a 2 jours").getD 1 "")))) :=
  ⟨rfl, by decide,
    C3_location_split commaDetailPage "u" "Ariana, il y a 2 jours" rfl (by decide)⟩

/-- C4: the Pagination Controller stops (with `success = true` always)
when a page is empty, stops after appending a page of fewer than 30
products, and otherwise appends and advances up to the maximum; per-page
results [30, 30, 12] stop after page 3 with the 72 products aggregated
in scrape order, and [0] stops after page 1 with 0 products. -/
theorem C4_pagination :
    (∀ (f : Nat → PageOutcome) (rem cur : Nat) (acc : List Product),
      f cur = PageOutcome.ok [] → scrapeAux f (rem + 1) cur acc = acc)
    ∧ (∀ (f : Nat → PageOutcome) (rem cur : Nat) (acc ps : List Product),
        f cur = PageOutcome.ok ps → ps ≠ [] → ps.length < 30 →
        scrapeAux f (rem + 1) cur acc = acc ++ ps)
    ∧ (∀ (f : Nat → PageOutcome) (rem cur : Nat) (acc ps : List Product),
        f cur = PageOutcome.ok ps → ¬ ps.length < 30 →
        scrapeAux f (rem + 1) cur acc = scrapeAux f rem (cur + 1) (acc ++ ps))
    ∧ (∀ (f : Nat → PageOutcome) (m : Nat), (scrape_products f m).success = true)
    ∧ (∀ (f : Nat → PageOutcome) (m : Nat) (ps1 ps2 ps3 : List Product),
        3 ≤ m →
        f 1 = PageOutcome.ok ps1 → ps1.length = 30 →
        f 2 = PageOutcome.ok ps2 → ps2.length = 30 →
        f 3 = PageOutcome.ok ps3 → ps3.length = 12 →
        scrape_products f m =
          { success := true, total_products := 72, products := ps1 ++ ps2 ++ ps3 })
    ∧ (∀ (g : Nat → PageOutcome) (m : Nat),
        1 ≤ m → g 1 = PageOutcome.ok [] →
        scrape_products g m =
          { success := true, total_products := 0, products := [] }) := by
  refine ⟨scrapeAux_ok_stop_empty, scrapeAux_ok_stop_small, scrapeAux_ok_continue,
    fun f m => rfl, ?_, ?_⟩
  · intro f m ps1 ps2 ps3 hm h1 l1 h2 l2 h3 l3
    obtain ⟨k, rfl⟩ : ∃ k, m = k + 3 := ⟨m - 3, by omega⟩
    have e1 : scrapeAux f (k + 3) 1 [] = scrapeAux f (k + 2) 2 ([] ++ ps1) :=
      scrapeAux_ok_continue f (k + 2) 1 [] ps1 h1 (by omega)
    have e2 : scrapeAux f (k + 2) 2 ([] ++ ps1) = scrapeAux f (k + 1) 3 ([] ++ ps1 ++ ps2) :=
      scrapeAux_ok_continue f (k + 1) 2 ([] ++ ps1) ps2 h2 (by omega)
    have e3 : scrapeAux f (k + 1) 3 ([] ++ ps1 ++ ps2) = [] ++ ps1 ++ ps2 ++ ps3 :=
      scrapeAux_ok_stop_small f k 3 ([] ++ ps1 ++ ps2) ps3 h3
        (List.ne_nil_of_length_pos (by omega)) (by omega)
    have eall : scrapeAux f (k + 3) 1 [] = [] ++ ps1 ++ ps2 ++ ps3 := by
      rw [e1, e2, e3]
    simp [scrape_products, eall, l1, l2, l3]
  · intro g m hm hg
    obtain ⟨k, rfl⟩ : ∃ k, m = k + 1 := ⟨m - 1, by omega⟩
    have eg : scrapeAux g (k + 1) 1 [] = [] :=
      scrapeAux_ok_stop_empty g k 1 [] hg
    simp [scrape_products, eg]

/-- C4, witness: the pagination facts applied to the concrete runs
[30, 30, 12] and [0]. -/
theorem C4_pagination_witness :
    scrapeAux pagesEmpty (0 + 1) 1 [] = []
    ∧ scrapeAux pages303012 (0 + 1) 3 [] = [] ++ List.replicate 12 stubProduct
    ∧ scrapeAux pages303012 (1 + 1) 1 [] =
        scrapeAux pages303012 1 2 ([] ++ List.replicate 30 stubProduct)
    ∧ (scrape_products pages303012 3).success = true
    ∧ scrape_products pages303012 3 =
        { success := true, total_products := 72,
          products := List.replicate 30 stubProduct ++ List.replicate 30 stubProduct
            ++ List.replicate 12 stubProduct }
    ∧ scrape_products pagesEmpty 1 =
        { success := true, total_products := 0, products := [] } :=
  ⟨C4_pagination.1 pagesEmpty 0 1 [] rfl,
   C4_pagination.2.1 pages303012 0 3 [] (List.replicate 12 stubProduct) rfl
     (by simp) (by simp),
   C4_pagination.2.2.1 pages303012 1 1 [] (List.replicate 30 stubProduct) rfl
     (by simp),
   C4_pagination.2.2.2.1 pages303012 3,
   C4_pagination.2.2.2.2.1 pages303012 3 _ _ _ (by omega) rfl (by simp) rfl
     (by simp) rfl (by simp),
   C4_pagination.2.2.2.2.2 pagesEmpty 1 (by omega) rfl⟩

/-- C5: `build_url` emits exactly the URL shape the spec promises —
the present fields' segments in fixed order, percent-encoded, joined by
`/` with a trailing slash, followed by the query string from `minPrice`,
`maxPrice` and truthy `page` — and no segment is empty, so no stray
separators arise from absent fields. -/
theorem C5_build_url_shape (query category : String)
    (subcategory city condition : Option String)
    (min_price max_price page : Option Int) :
    build_url query category subcategory city condition min_price max_price page =
      build_url_spec query category subcategory city condition min_price max_price page
    ∧ ∀ s ∈ specSegments query category subcategory city condition, s ≠ "" := by
  constructor
  · simp only [build_url, build_url_spec, specSegments, specParams, appendIf_eq,
      appendOptInt_eq, List.nil_append, List.append_assoc]
  · have hseg : ∀ (l1 l2 : List String), (∀ s ∈ l1, s ≠ "") → (∀ s ∈ l2, s ≠ "") →
        ∀ s ∈ l1 ++ l2, s ≠ "" := by
      intro l1 l2 h1 h2 s hs
      rcases List.mem_append.mp hs with h | h
      · exact h1 s h
      · exact h2 s h
    have hifP : ∀ (c : Prop) [Decidable c] (x : String), (c → x ≠ "") →
        ∀ s ∈ (if c then [x] else ([] : List String)), s ≠ "" := by
      intro c inst x hx s hs
      by_cases hc : c
      · rw [if_pos hc] at hs
        rw [List.mem_singleton.mp hs]
        exact hx hc
      · rw [if_neg hc] at hs
        cases hs
    intro s hs
    unfold specSegments at hs
    refine hseg _ _ (hseg _ _ (hseg _ _ (hseg _ _ ?_ ?_) ?_) ?_) ?_ s hs
    · exact hifP _ _ (fun _ => append_ne_empty_left "c/" _ (by decide))
    · exact hifP _ _ (fun h => pyQuote_ne_empty _ (optStrTruthy_getD _ h))
    · exact hifP _ _ (fun _ => append_ne_empty_left "l/" _ (by decide))
    · exact hifP _ _ (fun _ => append_ne_empty_left "t/" _ (by decide))
    · exact hifP _ _ (fun _ => append_ne_empty_left "k/" _ (by decide))

/-- C5, witness: the URL shape at a concrete argument combination, and
non-emptiness of a concrete present segment. -/
theorem C5_build_url_shape_witness :
    build_url "tv" "Inf" none none none none none (some 1) =
      build_url_spec "tv" "Inf" none none none none none (some 1)
    ∧ ("c/" ++ pyQuote "Inf") ∈ specSegments "tv" "Inf" none none none
    ∧ ("c/" ++ pyQuote "Inf") ≠ "" :=
  ⟨(C5_build_url_shape "tv" "Inf" none none none none none (some 1)).1,
   by decide,
   (C5_build_url_shape "tv" "Inf" none none none none none (some 1)).2
     ("c/" ++ pyQuote "Inf") (by decide)⟩

/-- C6: `/product` rejects a URL outside the target origin with a 400
client error no matter what scraping would return (so before any scrape
occurs), and wraps any exception raised by the detail extraction into a
failure-flagged response holding a placeholder `Product` (title
`"Error"`, the input URL) and the error text, instead of a 500. -/
theorem C6_product_endpoint :
    (∀ (url : String) (scrape : Except String Product),
      ¬ pyStartswith url "https://www.tayara.tn/" →
        get_product_info url scrape =
          EndpointResult.httpError 400 "URL must be a valid Tayara.tn product URL")
    ∧ (∀ (url e : String),
        pyStartswith url "https://www.tayara.tn/" →
          get_product_info url (Except.error e) =
            EndpointResult.ok
              { success := false, product := { title := "Error", product_url := url },
                error := some e }) := by
  constructor
  · intro url scrape h
    simp [get_product_info, h]
  · intro url e h
    simp [get_product_info, h]

/-- C6, witness: the endpoint behaviour at a foreign URL and at an
on-site URL whose extraction raised. -/
theorem C6_product_endpoint_witness :
    (¬ pyStartswith "https://example.com/item/1" "https://www.tayara.tn/")
    ∧ get_product_info "https://example.com/item/1" (Except.ok stubProduct) =
        EndpointResult.httpError 400 "URL must be a valid Tayara.tn product URL"
    ∧ get_product_info "https://www.tayara.tn/item/9"
        (Except.error "Failed to extract product info: timeout") =
        EndpointResult.ok
          { success := false,
            product := { title := "Error", product_url := "https://www.tayara.tn/item/9" },
            error := some "Failed to extract product info: timeout" } :=
  ⟨by decide,
   C6_product_endpoint.1 "https://example.com/item/1" (Except.ok stubProduct) (by decide),
   C6_product_endpoint.2 "https://www.tayara.tn/item/9"
     "Failed to extract product info: timeout" (by decide)⟩

/-- C7: `/search` rejects `min_price > max_price` (both given) with a
400 client error no matter what scraping would return, and when the
validation passes it wraps any exception escaping the pagination loop
into a failure-flagged `SearchResponse` carrying the error text instead
of propagating it. -/
theorem C7_search_endpoint :
    (∀ (mn mx : Int) (scrape : Except String ScrapeResult), mn > mx →
      search_products (some mn) (some mx) scrape =
        EndpointResult.httpError 400 "min_price cannot be greater than max_price")
    ∧ (∀ (mn mx : Option Int) (e : String), priceRangeInvalid mn mx = false →
        search_products mn mx (Except.error e) =
          EndpointResult.ok
            { success := false, total_products := 0, products := [],
              error := some e }) := by
  constructor
  · intro mn mx scrape h
    simp [search_products, priceRangeInvalid, h]
  · intro mn mx e h
    simp [search_products, h]

/-- C7, witness: the endpoint behaviour at `min_price=5000,
max_price=1000` and at a run whose scrape raised. -/
theorem C7_search_endpoint_witness :
    ((5000 : Int) > 1000)
    ∧ search_products (some 5000) (some 1000) (Except.ok stubScrapeResult) =
        EndpointResult.httpError 400 "min_price cannot be greater than max_price"
    ∧ priceRangeInvalid none none = false
    ∧ search_products none none (Except.error "Scraping failed: timeout") =
        EndpointResult.ok
          { success := false, total_products := 0, products := [],
            error := some "Scraping failed: timeout" } :=
  ⟨by decide,
   C7_search_endpoint.1 5000 1000 (Except.ok stubScrapeResult) (by decide),
   rfl,
   C7_search_endpoint.2 none none "Scraping failed: timeout" rfl⟩

/-- C8: every failure of the contact reveal sequence — only one reveal
button (so `buttons[1]` raises `IndexError`), or the `tel:` link never
appearing within the bounded wait — is caught, leaving `seller_contact`
absent; the whole extraction can only fail with the location
`IndexError` or the unbound `description`, never from the contact block;
and on success the contact is the `tel:` link text with its first four
characters stripped (then trimmed). -/
theorem C8_contact_reveal (pg : DetailPage) (url : String) :
    (pg.buttonsCount = 1 → contactOf pg = none)
    ∧ (pg.tel_link = none → contactOf pg = none)
    ∧ (∀ e, get_product_page_info pg url = Except.error e →
        e = PyExn.indexError ∨ e = PyExn.nameError "description")
    ∧ (∀ t, 2 ≤ pg.buttonsCount → pg.clickRaises = false →
        pg.tel_link = some (some t) → t ≠ "" →
        contactOf pg = some (pyStrip ⟨t.data.drop 4⟩)) := by
  refine ⟨?_, ?_, ?_, ?_⟩
  · intro h
    simp [contactOf, contactAttempt, h]
  · intro h
    unfold contactOf contactAttempt
    rw [h]
    split_ifs <;> rfl
  · intro e h
    simp only [get_product_page_info] at h
    cases hls : locationSplit pg with
    | error e2 =>
      rw [hls] at h
      dsimp only at h
      injection h with h
      subst h
      left
      exact locationSplit_error_eq pg e2 hls
    | ok ld =>
      obtain ⟨loc, dp⟩ := ld
      rw [hls] at h
      dsimp only at h
      cases hpd : (priceAndDescription pg).2 with
      | none =>
        rw [hpd] at h
        dsimp only at h
        injection h with h
        subst h
        right
        rfl
      | some d =>
        rw [hpd] at h
        cases h
  · intro t hb hcl htel hne
    have h0 : ¬ pg.buttonsCount = 0 := by omega
    have h1 : ¬ pg.buttonsCount < 2 := by omega
    simp [contactOf, contactAttempt, h0, h1, hcl, htel, hne]

/-- C8, witness: the contact facts at a one-button page, a page whose
`tel:` link times out, a page whose extraction error is unrelated to
the contact block, and a page with a successful reveal. -/
theorem C8_contact_reveal_witness :
    contactOf oneButtonPage = none
    ∧ contactOf telTimeoutPage = none
    ∧ (PyExn.nameError "description" = PyExn.indexError
       ∨ PyExn.nameError "description" = PyExn.nameError "description")
    ∧ contactOf telOkPage = some (pyStrip ⟨("tel:21234567 " : String).data.drop 4⟩) :=
  ⟨(C8_contact_reveal oneButtonPage "u").1 rfl,
   (C8_contact_reveal telTimeoutPage "u").2.1 rfl,
   (C8_contact_reveal oneButtonPage "u").2.2.1 (PyExn.nameError "description") rfl,
   (C8_contact_reveal telOkPage "u").2.2.2 "tel:21234567 " (by decide) rfl rfl
     (by decide)⟩

/-- C9: the Pagination Controller's reported `total_products` is always
the length of its aggregated product list, whatever the per-page
outcomes (including erroring pages) and page limit. -/
theorem C9_total_products_consistent (f : Nat → PageOutcome) (m : Nat) :
    (scrape_products f m).total_products = (scrape_products f m).products.length :=
  rfl

/-- C10: every `Product` emitted by the Listing Extractor leaves
`description`, `seller_name` and `seller_contact` absent and
`is_delivery_available` false — listing records never carry the
detail-page fields. -/
theorem C10_listing_fields (e : CardElement) (p : Product)
    (h : extract_product_info e = some p) :
    p.description = none ∧ p.seller_name = none ∧ p.seller_contact = none ∧
      p.is_delivery_available = false := by
  unfold extract_product_info at h
  dsimp only at h
  split at h
  · split at h
    · cases h
      exact ⟨rfl, rfl, rfl, rfl⟩
    · cases h
  · cases h

/-- C10, witness: the field facts at a concrete listing card. -/
theorem C10_listing_fields_witness :
    extract_product_info plainCard = some plainCardProduct
    ∧ plainCardProduct.description = none
    ∧ plainCardProduct.seller_name = none
    ∧ plainCardProduct.seller_contact = none
    ∧ plainCardProduct.is_delivery_available = false :=
  ⟨rfl, C10_listing_fields plainCard plainCardProduct rfl⟩

end Tayara
